import Mathlib

/-!
Verification development for the openclaw associative-memory engine.

The attention gate (`src/extensions/memory-neo4j/attention-gate.ts`) is embedded
directly from its TypeScript source: JavaScript regular expressions are modelled
by a total, executable Brzozowski-derivative matcher over `List Char`, and the
JS string primitives used by the gate (`trim`, `length` in UTF-16 units,
`split(/\s+/).length`, `includes`, `match(...).length`) are embedded as
executable functions.

The Neo4j record-store client (`neo4j-client.ts`) is not part of the source
tree (only its test suite is), so those operations are modelled from the
specification, with the backing graph store represented as explicit state.
-/

/-! ## Regular expressions (Brzozowski derivatives)

JavaScript regexes used by the attention gate are desugared into this AST.
Character classes are predicates; the `/i` flag is desugared into
case-insensitive character predicates; `test` on an unanchored regex is
desugared by padding with `.star reAny`.
-/

inductive RE where
  | emp : RE
  | eps : RE
  | cls : (Char → Bool) → RE
  | cat : RE → RE → RE
  | alt : RE → RE → RE
  | star : RE → RE

def reNullable : RE → Bool
  | .emp => false
  | .eps => true
  | .cls _ => false
  | .cat a b => reNullable a && reNullable b
  | .alt a b => reNullable a || reNullable b
  | .star _ => true

def reDeriv (c : Char) : RE → RE
  | .emp => .emp
  | .eps => .emp
  | .cls p => if p c then .eps else .emp
  | .cat a b =>
    if reNullable a then .alt (.cat (reDeriv c a) b) (reDeriv c b)
    else .cat (reDeriv c a) b
  | .alt a b => .alt (reDeriv c a) (reDeriv c b)
  | .star a => .cat (reDeriv c a) (.star a)

/-- Total regex matcher: does `r` match the whole character list? -/
def reMatch (r : RE) : List Char → Bool
  | [] => reNullable r
  | c :: s => reMatch (reDeriv c r) s

/-- Matches any single character (used to desugar unanchored search). -/
def reAny : RE := .cls (fun _ => true)

def reOpt (r : RE) : RE := .alt .eps r

def rePlus (r : RE) : RE := .cat r (.star r)

def reCh (c : Char) : RE := .cls (fun d => d = c)

/-- Case-insensitive single character (JS `/i` flag on a literal). -/
def ciChar (c : Char) : RE := .cls (fun d => d.toLower = c.toLower)

def ciL : List Char → RE
  | [] => .eps
  | c :: cs => .cat (ciChar c) (ciL cs)

/-- Case-insensitive literal string. -/
def ciStr (s : String) : RE := ciL s.toList

def reSeq (l : List RE) : RE := l.foldr .cat .eps

def reAltList : List RE → RE
  | [] => .emp
  | [r] => r
  | r :: rs => .alt r (reAltList rs)

/-- Exactly `n` repetitions (JS `{n}`). -/
def repExact : Nat → RE → RE
  | 0, _ => .eps
  | n + 1, r => .cat r (repExact n r)

/-- At most `n` repetitions (JS `{0,n}`). -/
def repUpTo : Nat → RE → RE
  | 0, _ => .eps
  | n + 1, r => reOpt (.cat r (repUpTo n r))

/-! ## JavaScript string primitives -/

/-- The JS `\s` class and the character set removed by `String.prototype.trim`
(ECMAScript WhiteSpace plus LineTerminator). -/
def jsWhitespace (c : Char) : Bool :=
  c = ' ' || c = '\t' || c = '\n' || c = '\r' ||
  c.val = 0x0B || c.val = 0x0C || c.val = 0x00A0 || c.val = 0x1680 ||
  (0x2000 ≤ c.val && c.val ≤ 0x200A) || c.val = 0x2028 || c.val = 0x2029 ||
  c.val = 0x202F || c.val = 0x205F || c.val = 0x3000 || c.val = 0xFEFF

/-- JS `text.trim()` on the code-point list. -/
def jsTrimList (l : List Char) : List Char :=
  ((l.dropWhile jsWhitespace).reverse.dropWhile jsWhitespace).reverse

/-- UTF-16 length of one code point (JS `String.prototype.length` counts
surrogate pairs as 2). -/
def jsCharLen (c : Char) : Nat := if 0x10000 ≤ c.val then 2 else 1

/-- JS `s.length` (UTF-16 code units). -/
def jsLength (l : List Char) : Nat := (l.map jsCharLen).sum

def wordCountAux : List Char → Bool → Nat
  | [], _ => 0
  | c :: rest, inWord =>
    if jsWhitespace c then wordCountAux rest false
    else (if inWord then 0 else 1) + wordCountAux rest true

/-- JS `trimmed.split(/\s+/).length` for an already-trimmed string: the number
of maximal non-whitespace runs, except that the empty string yields `[""]`,
i.e. 1. -/
def wordCountJS (l : List Char) : Nat :=
  if l.isEmpty then 1 else wordCountAux l false

/-- Does `sub` occur as a contiguous segment of the second list
(JS `String.prototype.includes`)? -/
def containsSub (sub : List Char) : List Char → Bool
  | [] => sub.isEmpty
  | c :: rest => sub.isPrefixOf (c :: rest) || containsSub sub rest

/-! ## Unicode `Emoji` property

Code-point ranges with `Emoji=Yes` in the Unicode Character Database
(`emoji-data.txt`); this is the set matched by the JS class `\p{Emoji}`.
Note that it includes `#` (0x23), `*` (0x2A) and the ASCII digits
0x30–0x39 (they are keycap bases). -/
def emojiRanges : List (UInt32 × UInt32) :=
  [(0x23, 0x23), (0x2A, 0x2A), (0x30, 0x39), (0xA9, 0xA9), (0xAE, 0xAE),
   (0x203C, 0x203C), (0x2049, 0x2049), (0x2122, 0x2122), (0x2139, 0x2139),
   (0x2194, 0x2199), (0x21A9, 0x21AA), (0x231A, 0x231B), (0x2328, 0x2328),
   (0x23CF, 0x23CF), (0x23E9, 0x23F3), (0x23F8, 0x23FA), (0x24C2, 0x24C2),
   (0x25AA, 0x25AB), (0x25B6, 0x25B6), (0x25C0, 0x25C0), (0x25FB, 0x25FE),
   (0x2600, 0x2604), (0x260E, 0x260E), (0x2611, 0x2611), (0x2614, 0x2615),
   (0x2618, 0x2618), (0x261D, 0x261D), (0x2620, 0x2620), (0x2622, 0x2623),
   (0x2626, 0x2626), (0x262A, 0x262A), (0x262E, 0x262F), (0x2638, 0x263A),
   (0x2640, 0x2640), (0x2642, 0x2642), (0x2648, 0x2653), (0x265F, 0x2660),
   (0x2663, 0x2663), (0x2665, 0x2666), (0x2668, 0x2668), (0x267B, 0x267B),
   (0x267E, 0x267F), (0x2692, 0x2697), (0x2699, 0x2699), (0x269B, 0x269C),
   (0x26A0, 0x26A1), (0x26A7, 0x26A7), (0x26AA, 0x26AB), (0x26B0, 0x26B1),
   (0x26BD, 0x26BE), (0x26C4, 0x26C5), (0x26C8, 0x26C8), (0x26CE, 0x26CF),
   (0x26D1, 0x26D1), (0x26D3, 0x26D4), (0x26E9, 0x26EA), (0x26F0, 0x26F5),
   (0x26F7, 0x26FA), (0x26FD, 0x26FD), (0x2702, 0x2702), (0x2705, 0x2705),
   (0x2708, 0x270D), (0x270F, 0x270F), (0x2712, 0x2712), (0x2714, 0x2714),
   (0x2716, 0x2716), (0x271D, 0x271D), (0x2721, 0x2721), (0x2728, 0x2728),
   (0x2733, 0x2734), (0x2744, 0x2744), (0x2747, 0x2747), (0x274C, 0x274C),
   (0x274E, 0x274E), (0x2753, 0x2755), (0x2757, 0x2757), (0x2763, 0x2764),
   (0x2795, 0x2797), (0x27A1, 0x27A1), (0x27B0, 0x27B0), (0x27BF, 0x27BF),
   (0x2934, 0x2935), (0x2B05, 0x2B07), (0x2B1B, 0x2B1C), (0x2B50, 0x2B50),
   (0x2B55, 0x2B55), (0x3030, 0x3030), (0x303D, 0x303D), (0x3297, 0x3297),
   (0x3299, 0x3299),
   (0x1F004, 0x1F004), (0x1F0CF, 0x1F0CF), (0x1F170, 0x1F171),
   (0x1F17E, 0x1F17F), (0x1F18E, 0x1F18E), (0x1F191, 0x1F19A),
   (0x1F1E6, 0x1F1FF), (0x1F201, 0x1F202), (0x1F21A, 0x1F21A),
   (0x1F22F, 0x1F22F), (0x1F232, 0x1F23A), (0x1F250, 0x1F251),
   (0x1F300, 0x1F321), (0x1F324, 0x1F393), (0x1F396, 0x1F397),
   (0x1F399, 0x1F39B), (0x1F39E, 0x1F3F0), (0x1F3F3, 0x1F3F5),
   (0x1F3F7, 0x1F4FD), (0x1F4FF, 0x1F53D), (0x1F549, 0x1F54E),
   (0x1F550, 0x1F567), (0x1F56F, 0x1F570), (0x1F573, 0x1F57A),
   (0x1F587, 0x1F587), (0x1F58A, 0x1F58D), (0x1F590, 0x1F590),
   (0x1F595, 0x1F596), (0x1F5A4, 0x1F5A5), (0x1F5A8, 0x1F5A8),
   (0x1F5B1, 0x1F5B2), (0x1F5BC, 0x1F5BC), (0x1F5C2, 0x1F5C4),
   (0x1F5D1, 0x1F5D3), (0x1F5DC, 0x1F5DE), (0x1F5E1, 0x1F5E1),
   (0x1F5E3, 0x1F5E3), (0x1F5E8, 0x1F5E8), (0x1F5EF, 0x1F5EF),
   (0x1F5F3, 0x1F5F3), (0x1F5FA, 0x1F64F), (0x1F680, 0x1F6C5),
   (0x1F6CB, 0x1F6D2), (0x1F6D5, 0x1F6D7), (0x1F6DC, 0x1F6E5),
   (0x1F6E9, 0x1F6E9), (0x1F6EB, 0x1F6EC), (0x1F6F0, 0x1F6F0),
   (0x1F6F3, 0x1F6FC), (0x1F7E0, 0x1F7EB), (0x1F7F0, 0x1F7F0),
   (0x1F90C, 0x1F93A), (0x1F93C, 0x1F945), (0x1F947, 0x1F9FF),
   (0x1FA70, 0x1FA7C), (0x1FA80, 0x1FA88), (0x1FA90, 0x1FABD),
   (0x1FABF, 0x1FAC5), (0x1FACE, 0x1FADB), (0x1FAE0, 0x1FAE8),
   (0x1FAF0, 0x1FAF8)]

/-- Does `c` have the Unicode `Emoji` property (JS `\p{Emoji}`)? -/
def isEmojiChar (c : Char) : Bool :=
  emojiRanges.any (fun r => r.1 ≤ c.val && c.val ≤ r.2)

/-! ## The gate's noise patterns

Each `noiseN` is the desugaring of one entry of the `NOISE_PATTERNS` array of
`attention-gate.ts`, in source order, as a whole-string regex with unanchored
sides padded by `.star reAny`. -/

def spCls : RE := .cls jsWhitespace

def spStar : RE := .star spCls

def spPlus : RE := rePlus spCls

/-- JS `[.!?]*`. -/
def punctStar : RE := .star (.cls (fun c => c = '.' || c = '!' || c = '?'))

/-- JS `.` without the `/s` flag: any character except a line terminator. -/
def dotNoNL : RE :=
  .cls (fun c => !(c = '\n' || c = '\r' || c.val = 0x2028 || c.val = 0x2029))

def apoCh : Char := Char.ofNat 39

def lbraceCh : Char := Char.ofNat 123

/-- Pattern 1: greetings / acknowledgments with optional punctuation. -/
def noise1 : RE :=
  reSeq [reAltList (["hi", "hey", "hello", "yo", "sup", "ok", "okay", "sure",
    "thanks", "thank you", "thx", "ty", "yep", "yup", "nope", "no", "yes",
    "yeah", "cool", "nice", "great", "got it", "sounds good", "perfect",
    "alright", "fine", "noted", "ack", "kk", "k"].map ciStr),
    spStar, punctStar]

/-- Pattern 2: two-word affirmations. -/
def noise2 : RE :=
  reSeq [reAltList (["ok", "okay", "yes", "yeah", "yep", "sure", "no", "nope",
    "alright", "right", "fine", "cool", "nice", "great"].map ciStr),
    spPlus,
    reAltList (["great", "good", "sure", "thanks", "please", "ok", "fine",
    "cool", "yeah", "perfect", "noted", "absolutely", "definitely",
    "exactly"].map ciStr),
    spStar, punctStar]

/-- Pattern 3: deictic filler ("let me check it out" and the like). -/
def noise3 : RE :=
  reSeq [reOpt (reSeq [ciStr "ok",
      reOpt (.cls (fun c => c = ',' || c = '.')), spPlus]),
    reOpt (reSeq [ciChar 'i',
      reOpt (reAltList [ciL [apoCh, 'l', 'l'], ciL [apoCh, 'm'],
        ciL [apoCh, 'd'], ciL [apoCh, 'v', 'e']]),
      spPlus]),
    reOpt (.cat (ciStr "just") spPlus),
    reAltList ([ciStr "need", ciStr "want", ciStr "got", ciStr "have",
      ciStr "let", ciL ['l', 'e', 't', apoCh, 's'], ciStr "let me",
      ciStr "give me", ciStr "send", ciStr "do", ciStr "did", ciStr "try",
      ciStr "check", ciStr "see", ciStr "look at", ciStr "test", ciStr "take",
      ciStr "get", ciStr "go", ciStr "use"]),
    spPlus,
    reAltList (["it", "that", "this", "those", "these", "them", "some", "one",
      "the", "a", "an", "me", "him", "her", "us"].map ciStr),
    spStar,
    reOpt (reAltList (["out", "up", "now", "then", "too", "again", "later",
      "first", "here", "there", "please"].map ciStr)),
    spStar, punctStar]

/-- Pattern 4: short acknowledgment plus up to 20 trailing characters. -/
def noise4 : RE :=
  reSeq [reAltList (["ok", "okay", "yes", "yeah", "yep", "sure", "no", "nope",
    "right", "alright", "fine", "cool", "nice", "great", "perfect"].map ciStr),
    reOpt (.cls (fun c => c = ',' || c = '.')),
    spPlus, repUpTo 20 dotNoNL]

/-- Pattern 5: conversational filler and exclamations (`hmm+`, `woo+`). -/
def noise5 : RE :=
  reSeq [reAltList [.cat (ciStr "hm") (rePlus (ciChar 'm')), ciStr "huh",
    ciStr "haha", ciStr "ha", ciStr "lol", ciStr "lmao", ciStr "rofl",
    ciStr "nah", ciStr "meh", ciStr "idk", ciStr "brb", ciStr "ttyl",
    ciStr "omg", ciStr "wow", ciStr "whoa", ciStr "welp", ciStr "oops",
    ciStr "ooh", ciStr "aah", ciStr "ugh", ciStr "bleh", ciStr "pfft",
    ciStr "smh", ciStr "ikr", ciStr "tbh", ciStr "imo", ciStr "fwiw",
    ciStr "np", ciStr "nvm", ciStr "nm", ciStr "wut", ciStr "wat",
    ciStr "wha", ciStr "heh", ciStr "tsk", ciStr "sigh", ciStr "yay",
    .cat (ciStr "wo") (rePlus (ciChar 'o')), ciStr "boo", ciStr "dang",
    ciStr "darn", ciStr "geez", ciStr "gosh", ciStr "sheesh", ciStr "oof"],
    spStar, punctStar]

/-- Pattern 6: at most three non-whitespace characters (`^\S{0,3}$`). -/
def noise6 : RE := repUpTo 3 (.cls (fun c => !jsWhitespace c))

/-- Pattern 7: pure emoji (`^[\p{Emoji}\s]+$` with the `/u` flag). -/
def noise7 : RE := rePlus (.cls (fun c => isEmojiChar c || jsWhitespace c))

/-- JS `[a-z-]` under `/i`. -/
def tagNameCls : RE :=
  .cls (fun c => ('a' ≤ c && c ≤ 'z') || ('A' ≤ c && c ≤ 'Z') || c = '-')

/-- Pattern 8: raw XML-ish markup wrapper. -/
def noise8 : RE :=
  reSeq [reCh '<', rePlus tagNameCls, reCh '>', .star reAny,
    reCh '<', reCh '/', rePlus tagNameCls, reCh '>']

/-- Pattern 9: session-reset banner (anchored at the start only). -/
def noise9 : RE := .cat (ciStr "A new session was started via") (.star reAny)

/-- Pattern 10: heartbeat prompt (unanchored substring search). -/
def noise10 : RE :=
  reSeq [.star reAny, ciStr "Read HEARTBEAT.md if it exists", .star reAny]

/-- Pattern 11: pre-compaction flush prompt. -/
def noise11 : RE := .cat (ciStr "Pre-compaction memory flush") (.star reAny)

/-- Pattern 12: system timestamp messages (`^System:\s*\[`). -/
def noise12 : RE := reSeq [ciStr "System:", spStar, reCh '[', .star reAny]

/-- JS `[0-9a-f-]` under `/i`. -/
def hexDashCls : RE :=
  .cls (fun c => c.isDigit || ('a' ≤ c && c ≤ 'f') ||
    ('A' ≤ c && c ≤ 'F') || c = '-')

/-- Pattern 13: cron job wrappers (`^\[cron:[0-9a-f-]+`). -/
def noise13 : RE :=
  reSeq [reCh '[', ciStr "cron:", rePlus hexDashCls, .star reAny]

/-- Pattern 14: gateway-restart JSON payloads. -/
def noise14 : RE :=
  reSeq [ciStr "GatewayRestart:", spStar, reCh lbraceCh, .star reAny]

/-- JS `\w`. -/
def wordCls : RE :=
  .cls (fun c => c.isDigit || ('a' ≤ c && c ≤ 'z') ||
    ('A' ≤ c && c ≤ 'Z') || c = '_')

def digitCls : RE := .cls Char.isDigit

/-- Pattern 15: background-task completion reports. -/
def noise15 : RE :=
  reSeq [reCh '[', repExact 3 wordCls, spPlus, repExact 4 digitCls,
    reCh '-', repExact 2 digitCls, reCh '-', repExact 2 digitCls,
    spCls, .star dotNoNL, reCh ']', spStar,
    ciStr "A background task", .star reAny]

/-- The `NOISE_PATTERNS` array of `attention-gate.ts`, in source order. -/
def NOISE_PATTERNS : List RE :=
  [noise1, noise2, noise3, noise4, noise5, noise6, noise7, noise8,
   noise9, noise10, noise11, noise12, noise13, noise14, noise15]

/-! ## The attention gates -/

def MAX_CAPTURE_CHARS : Nat := 2000

def MIN_CAPTURE_CHARS : Nat := 30

def MIN_WORD_COUNT : Nat := 5

def relevantMemoriesMarker : List Char := "<relevant-memories>".toList

def coreMemoryRefreshMarker : List Char := "<core-memory-refresh>".toList

/-- JS `(trimmed.match(/[\u{1F300}-\u{1F9FF}]/gu) || []).length`. -/
def emojiCount (l : List Char) : Nat :=
  (l.filter (fun c => 0x1F300 ≤ c.val && c.val ≤ 0x1F9FF)).length

/-- Embedding of `passesAttentionGate` from `attention-gate.ts`. -/
def passesAttentionGate (text : String) : Bool :=
  let trimmed := jsTrimList text.toList
  if jsLength trimmed < MIN_CAPTURE_CHARS || MAX_CAPTURE_CHARS < jsLength trimmed then
    false
  else if wordCountJS trimmed < MIN_WORD_COUNT then
    false
  else if containsSub relevantMemoriesMarker trimmed ||
      containsSub coreMemoryRefreshMarker trimmed then
    false
  else if NOISE_PATTERNS.any (fun r => reMatch r trimmed) then
    false
  else if 3 < emojiCount trimmed then
    false
  else
    true

def MAX_ASSISTANT_CAPTURE_CHARS : Nat := 1000

def MIN_ASSISTANT_WORD_COUNT : Nat := 10

def toolResultMarker : List Char := "<tool_result>".toList

def toolUseMarker : List Char := "<tool_use>".toList

def functionCallMarker : List Char := "<function_call>".toList

def tickCh : Char := Char.ofNat 96

/-- Splits the list at the first triple-backtick fence: returns the segment
before the fence and the remainder after it. -/
def splitAtFence : List Char → Option (List Char × List Char)
  | [] => none
  | c :: rest =>
    if c = tickCh && rest.take 2 = [tickCh, tickCh] then some ([], rest.drop 2)
    else
      match splitAtFence rest with
      | none => none
      | some (pre, post) => some (c :: pre, post)

theorem splitAtFence_length {l pre post : List Char}
    (h : splitAtFence l = some (pre, post)) : post.length + 3 ≤ l.length := by
  induction l generalizing pre post with
  | nil => simp [splitAtFence] at h
  | cons c rest ih =>
    simp only [splitAtFence] at h
    split at h
    · rename_i hc
      obtain ⟨h1, h2⟩ := Prod.mk.injEq .. ▸ Option.some.injEq .. ▸ h
      have htake : rest.take 2 = [tickCh, tickCh] := by
        exact (Bool.and_eq_true _ _ ▸ hc).2 |> of_decide_eq_true
      have hlen2 : 2 ≤ rest.length := by
        have := congrArg List.length htake
        simp [List.length_take] at this
        omega
      have : post = rest.drop 2 := h2.symm ▸ rfl
      subst this
      simp [List.length_drop]
      omega
    · cases hrec : splitAtFence rest with
      | none => rw [hrec] at h; exact absurd h (by simp)
      | some pr =>
        rw [hrec] at h
        obtain ⟨pre', post'⟩ := pr
        have h2 : post = post' := by
          simpa using congrArg (fun o => Option.map Prod.snd o) h |>.symm
        subst h2
        have := ih hrec
        simp at this ⊢
        omega

/-- Total UTF-16-unit count of all matches of the global lazy regex
``/(three backticks)[\s\S]*?(three backticks)/g`` — the `codeChars`
accumulation of `passesAssistantAttentionGate`. -/
def codeBlockChars (l : List Char) : Nat :=
  match h1 : splitAtFence l with
  | none => 0
  | some (_, afterOpen) =>
    match h2 : splitAtFence afterOpen with
    | none => 0
    | some (inner, afterClose) =>
      jsLength inner + 6 + codeBlockChars afterClose
termination_by l.length
decreasing_by
  have a1 := splitAtFence_length h1
  have a2 := splitAtFence_length h2
  omega

/-- Embedding of `passesAssistantAttentionGate` from `attention-gate.ts`. -/
def passesAssistantAttentionGate (text : String) : Bool :=
  let trimmed := jsTrimList text.toList
  if jsLength trimmed < MIN_CAPTURE_CHARS ||
      MAX_ASSISTANT_CAPTURE_CHARS < jsLength trimmed then
    false
  else if wordCountJS trimmed < MIN_ASSISTANT_WORD_COUNT then
    false
  else if jsLength trimmed < 2 * codeBlockChars trimmed then
    false
  else if containsSub toolResultMarker trimmed ||
      containsSub toolUseMarker trimmed ||
      containsSub functionCallMarker trimmed then
    false
  else if containsSub relevantMemoriesMarker trimmed ||
      containsSub coreMemoryRefreshMarker trimmed then
    false
  else if NOISE_PATTERNS.any (fun r => reMatch r trimmed) then
    false
  else if 3 < emojiCount trimmed then
    false
  else
    true

/-! ## Regex matcher lemmas -/

theorem reMatch_alt (a b : RE) (s : List Char) :
    reMatch (.alt a b) s = (reMatch a s || reMatch b s) := by
  induction s generalizing a b with
  | nil => simp [reMatch, reNullable]
  | cons c t ih => simp [reMatch, reDeriv, ih]

theorem reMatch_catEmp (r : RE) (s : List Char) :
    reMatch (.cat .emp r) s = false := by
  induction s with
  | nil => simp [reMatch, reNullable]
  | cons c t ih => simpa [reMatch, reDeriv, reNullable] using ih

theorem reMatch_catEps (r : RE) (s : List Char) :
    reMatch (.cat .eps r) s = reMatch r s := by
  cases s with
  | nil => simp [reMatch, reNullable]
  | cons c t =>
    simp [reMatch, reDeriv, reNullable, reMatch_alt, reMatch_catEmp]

theorem reMatch_star_cls (p : Char → Bool) (s : List Char)
    (h : ∀ c ∈ s, p c = true) : reMatch (.star (.cls p)) s = true := by
  induction s with
  | nil => simp [reMatch, reNullable]
  | cons c t ih =>
    have hc : p c = true := h c (List.mem_cons_self ..)
    simp only [reMatch, reDeriv, hc, if_true, reMatch_catEps]
    exact ih (fun d hd => h d (List.mem_cons_of_mem _ hd))

theorem reMatch_plus_cls (p : Char → Bool) (c : Char) (s : List Char)
    (hc : p c = true) (h : ∀ d ∈ s, p d = true) :
    reMatch (rePlus (.cls p)) (c :: s) = true := by
  simp [rePlus, reMatch, reDeriv, reNullable, hc, reMatch_catEps]
  exact reMatch_star_cls p s h

theorem isEmojiChar_of_isDigit {c : Char} (h : c.isDigit = true) :
    isEmojiChar c = true := by
  have h48 : 48 ≤ c.val ∧ c.val ≤ 57 := by
    simpa [Char.isDigit, Bool.and_eq_true, decide_eq_true_eq] using h
  unfold isEmojiChar
  rw [List.any_eq_true]
  refine ⟨(0x30, 0x39), by decide, ?_⟩
  simp only [Bool.and_eq_true, decide_eq_true_eq]
  exact h48

/-! ## Attention-gate claims -/

/-- Claim C6: for every input text whose trimmed length is below the 30-character
floor or above the ceiling (2000 for the user gate, 1000 for the assistant gate),
or whose whitespace-separated word count is below the minimum (5 for user, 10 for
assistant), the corresponding attention gate returns `false` regardless of the
text's content. -/
theorem attention_gate_threshold_reject (text : String) :
    ((jsLength (jsTrimList text.toList) < MIN_CAPTURE_CHARS ∨
      MAX_CAPTURE_CHARS < jsLength (jsTrimList text.toList) ∨
      wordCountJS (jsTrimList text.toList) < MIN_WORD_COUNT) →
      passesAttentionGate text = false) ∧
    ((jsLength (jsTrimList text.toList) < MIN_CAPTURE_CHARS ∨
      MAX_ASSISTANT_CAPTURE_CHARS < jsLength (jsTrimList text.toList) ∨
      wordCountJS (jsTrimList text.toList) < MIN_ASSISTANT_WORD_COUNT) →
      passesAssistantAttentionGate text = false) := by
  constructor
  · rintro (h | h | h) <;> simp only [String.toList] at h <;>
      simp [passesAttentionGate, h]
  · rintro (h | h | h) <;> simp only [String.toList] at h <;>
      simp [passesAssistantAttentionGate, h]

/-- Witness for C6 at concrete inputs: a short text, an over-30-character
single word, and an eight-word assistant text are all rejected. -/
theorem attention_gate_threshold_reject_witness :
    passesAttentionGate "hi" = false ∧
    passesAttentionGate "abcdefghijklmnopqrstuvwxyzabcdef" = false ∧
    passesAssistantAttentionGate "this is an eight word assistant message" = false :=
  ⟨(attention_gate_threshold_reject "hi").1 (Or.inl (by decide)),
   (attention_gate_threshold_reject "abcdefghijklmnopqrstuvwxyzabcdef").1
     (Or.inr (Or.inr (by decide))),
   (attention_gate_threshold_reject "this is an eight word assistant message").2
     (Or.inr (Or.inr (by decide)))⟩

/-- Claim C7: the assistant gate is strictly stricter than the user gate — for
every text, if `passesAssistantAttentionGate` accepts it then
`passesAttentionGate` accepts it as well (stated contrapositive-free as a
disjunction, which is classically the same implication). -/
theorem assistant_gate_stricter_than_user_gate (text : String) :
    passesAssistantAttentionGate text = false ∨ passesAttentionGate text = true := by
  cases hb : passesAssistantAttentionGate text with
  | false => exact Or.inl rfl
  | true =>
    right
    simp only [passesAssistantAttentionGate] at hb
    simp only [passesAttentionGate]
    split_ifs at hb with h1 h2 h3 h4 h5 h6 h7 <;> try simp at hb
    split_ifs with g1 g2
    · simp only [Bool.or_eq_true, decide_eq_true_eq, not_or,
        MIN_CAPTURE_CHARS, MAX_CAPTURE_CHARS, MAX_ASSISTANT_CAPTURE_CHARS] at g1 h1
      omega
    · simp only [decide_eq_true_eq, MIN_WORD_COUNT, MIN_ASSISTANT_WORD_COUNT] at g2 h2
      omega
    · rfl

/-- Claim C10: any text whose trimmed form consists only of ASCII digits and
whitespace is rejected by `passesAttentionGate` even when it satisfies the
length and word-count thresholds, because the pure-emoji noise pattern
`^[\p{Emoji}\s]+$` matches it — the Unicode `Emoji` property includes the
ASCII digits. -/
theorem attention_gate_rejects_digit_only_text (text : String)
    (hchars : ∀ c ∈ jsTrimList text.toList, c.isDigit = true ∨ jsWhitespace c = true)
    (hmin : MIN_CAPTURE_CHARS ≤ jsLength (jsTrimList text.toList))
    (hmax : jsLength (jsTrimList text.toList) ≤ MAX_CAPTURE_CHARS)
    (hwords : MIN_WORD_COUNT ≤ wordCountJS (jsTrimList text.toList)) :
    passesAttentionGate text = false := by
  have hp : ∀ d ∈ jsTrimList text.toList,
      (fun c => isEmojiChar c || jsWhitespace c) d = true := by
    intro d hd
    rcases hchars d hd with h | h
    · simp [isEmojiChar_of_isDigit h]
    · simp [h]
  have hne : jsTrimList text.toList ≠ [] := by
    intro h0
    rw [h0] at hmin
    simp [jsLength, MIN_CAPTURE_CHARS] at hmin
  have hmatch : reMatch noise7 (jsTrimList text.toList) = true := by
    cases hcs : jsTrimList text.toList with
    | nil => exact absurd hcs hne
    | cons c s =>
      rw [hcs] at hp
      exact reMatch_plus_cls _ c s (hp c (List.mem_cons_self ..))
        (fun d hd => hp d (List.mem_cons_of_mem _ hd))
  have hnoise : NOISE_PATTERNS.any (fun r => reMatch r (jsTrimList text.toList)) = true := by
    rw [List.any_eq_true]
    exact ⟨noise7, by simp [NOISE_PATTERNS], hmatch⟩
  simp only [String.toList] at hnoise ⊢
  simp [passesAttentionGate, hnoise]

/-- Witness for C10: a 30-character, five-group digit string is rejected. -/
theorem attention_gate_rejects_digit_only_text_witness :
    passesAttentionGate "12345 67890 12345 67890 123456" = false :=
  attention_gate_rejects_digit_only_text "12345 67890 12345 67890 123456"
    (by decide) (by decide) (by decide) (by decide)

/-! ## Record store model

The Neo4j record-store client (`neo4j-client.ts`) is absent from the source
tree — only its test suite is present — so the store and its operations are
modelled from the specification (spec sections 3, 4.2, 4.3, 4.5, 4.7), with
the graph store as explicit state. -/

/-- Modelled from the spec: a Memory node (identifier, importance, category);
the attributes not consulted by the operations verified here are omitted. -/
structure Memory where
  id : String
  importance : ℚ
  category : String
deriving DecidableEq, Repr

/-- Modelled from the spec: a MENTIONS edge from a memory to an entity. -/
structure Mention where
  memId : String
  entityName : String
deriving DecidableEq, Repr

/-- Modelled from the spec: an Entity node with its live-mention count. -/
structure MemEntity where
  name : String
  mentionCount : Nat
deriving DecidableEq, Repr

/-- Modelled from the spec: the backing graph store. -/
structure MemStore where
  memories : List Memory
  mentions : List Mention
  entities : List MemEntity
deriving DecidableEq, Repr

def memExists (st : MemStore) (id : String) : Bool :=
  st.memories.any (fun m => m.id = id)

/-! ### Cluster merge (spec 4.5) -/

structure MergeOutcome where
  survivorId : String
  deletedCount : Nat
  store : MemStore
  warned : Bool
deriving DecidableEq, Repr

/-- Modelled from the spec: the survivor of a cluster is the member with the
highest importance; on ties the member the store returned first is retained. -/
def selectSurvivor : List (String × ℚ) → String
  | [] => ""
  | p :: rest => (rest.foldl (fun best q => if best.2 < q.2 then q else best) p).1

/-- Modelled from the spec: `mergeMemoryCluster(ids, importances)` verifies that
every cluster member still exists; if any is missing the merge is skipped
entirely and a warning is emitted. Otherwise all MENTIONS edges of the losing
members are transferred to the survivor and the losers are detached and
deleted, in one transaction; the survivor id and the deleted count are
returned. -/
def mergeMemoryCluster (ids : List String) (importances : List ℚ)
    (st : MemStore) : MergeOutcome :=
  let survivor := selectSurvivor (ids.zip importances)
  if ids.all (fun i => memExists st i) then
    let losers := ids.filter (fun i => i ≠ survivor)
    { survivorId := survivor
      deletedCount := losers.length
      store := { st with
        memories := st.memories.filter (fun m => m.id ∉ losers)
        mentions := st.mentions.map (fun mn =>
          if mn.memId ∈ losers then { mn with memId := survivor } else mn) }
      warned := false }
  else
    { survivorId := survivor, deletedCount := 0, store := st, warned := true }

/-- Store used to instantiate the merge and delete theorems; the importances
are 0.3, 0.9, 0.5 and 0.7, written through `mkRat` so that they evaluate by
kernel reduction. -/
def exampleStore : MemStore :=
  { memories := [⟨"low", mkRat 3 10, "fact"⟩, ⟨"high", mkRat 9 10, "fact"⟩,
      ⟨"mid", mkRat 1 2, "fact"⟩, ⟨"solo", mkRat 7 10, "fact"⟩]
    mentions := [⟨"low", "alice"⟩, ⟨"mid", "acme"⟩, ⟨"high", "alice"⟩]
    entities := [⟨"alice", 2⟩, ⟨"acme", 1⟩] }

/-! ### Deletion (spec 4.2) -/

inductive DeleteError where
  | invalidIdentifier : DeleteError
deriving DecidableEq, Repr

/-- Splits a character list at every dash. -/
def splitDash : List Char → List (List Char)
  | [] => [[]]
  | c :: rest =>
    match splitDash rest with
    | [] => [[]]
    | h :: t => if c = '-' then [] :: h :: t else (c :: h) :: t

def isHexDigitCh (c : Char) : Bool :=
  c.isDigit || ('a' ≤ c && c ≤ 'f') || ('A' ≤ c && c ≤ 'F')

/-- Modelled from the spec: a well-formed (UUID-shaped) memory identifier —
five dash-separated groups of hex digits with lengths 8-4-4-4-12. -/
def isValidUuid (s : String) : Bool :=
  let parts := splitDash s.toList
  parts.map List.length = [8, 4, 4, 4, 12] &&
    parts.all (fun p => p.all isHexDigitCh)

structure DeleteOutcome where
  result : Except DeleteError Bool
  store : MemStore
  queries : Nat
deriving Repr

/-- Modelled from the spec: `deleteMemory(id)` fails with `InvalidIdentifier`
before any store call if the id is not well-formed; otherwise, in one atomic
query, decrements the mention count of every entity the memory referenced,
detaches and deletes the memory and its edges, and returns whether a record
existed. `queries` counts the store calls issued. -/
def deleteMemory (id : String) (st : MemStore) : DeleteOutcome :=
  if isValidUuid id then
    let referenced := (st.mentions.filter (fun mn => mn.memId = id)).map
      (fun mn => mn.entityName)
    { result := .ok (memExists st id)
      store := { memories := st.memories.filter (fun m => m.id ≠ id)
                 mentions := st.mentions.filter (fun mn => mn.memId ≠ id)
                 entities := st.entities.map (fun e =>
                   if e.name ∈ referenced then
                     { e with mentionCount := e.mentionCount - 1 }
                   else e) }
      queries := 1 }
  else
    { result := .error .invalidIdentifier, store := st, queries := 0 }

/-! ### Transient-failure retry (spec 4.7) -/

def TRANSIENT_RETRY_ATTEMPTS : Nat := 3

/-- Modelled from the spec: an error is recognized as transient when its
message carries one of the fixed keywords — a generic transient marker,
deadlock, service-unavailable, or session-expired. -/
def isTransientError (msg : String) : Bool :=
  ["Transient", "Deadlock", "ServiceUnavailable", "SessionExpired"].any
    (fun kw => containsSub kw.toList msg.toList)

def retryFrom {α : Type} (op : Nat → Except String α) (used remaining : Nat) :
    Nat × Except String α :=
  match op used with
  | .ok v => (used + 1, .ok v)
  | .error e =>
    if 2 ≤ remaining ∧ isTransientError e = true then
      retryFrom op (used + 1) (remaining - 1)
    else (used + 1, .error e)
termination_by remaining
decreasing_by omega

/-- Modelled from the spec: `retryOnTransient(operation)` runs the operation;
a failure recognized as transient is retried up to 3 total attempts, any other
failure propagates immediately. `op i` is the outcome the operation produces
on its `i`-th invocation; the result pairs how many times the operation was
invoked with the final outcome. -/
def retryOnTransient {α : Type} (op : Nat → Except String α) :
    Nat × Except String α :=
  retryFrom op 0 TRANSIENT_RETRY_ATTEMPTS

/-! ### Duplicate clusters (spec 4.5) -/

/-- Modelled from the spec: one union step of the union-find sweep — merge the
groups containing `a` and `b`; a neighbor id that is not tracked by the sweep
is ignored. -/
def unionIds (groups : List (List String)) (a b : String) : List (List String) :=
  match groups.find? (fun g => g.contains a), groups.find? (fun g => g.contains b) with
  | some ga, some gb =>
    if ga = gb then groups
    else (groups.filter (fun g => g ≠ ga && g ≠ gb)) ++ [ga ++ gb]
  | _, _ => groups

/-- Modelled from the spec: `findDuplicateClusters(threshold)` queries, for
every non-core memory, its near-neighbor ids at or above the similarity
threshold (`neighbors`), unions the ids via a union-find structure, stops
examining further memories once the safety cap of 500 candidate pairs is
exceeded, and emits only components with 2 or more members. -/
def findDuplicateClusters (memIds : List String)
    (neighbors : String → List String) : List (List String) :=
  let initial := memIds.map (fun i => [i])
  let final := (memIds.foldl
    (fun (acc : List (List String) × Nat) m =>
      if 500 < acc.2 then acc
      else ((neighbors m).foldl (fun gs n => unionIds gs m n) acc.1,
        acc.2 + (neighbors m).length))
    (initial, 0)).1
  final.filter (fun g => 2 ≤ g.length)

/-! ### Pareto threshold (spec 4.3) -/

def insertDesc (x : ℚ) : List ℚ → List ℚ
  | [] => [x]
  | y :: ys => if y ≤ x then x :: y :: ys else y :: insertDesc x ys

/-- Sorts scores in descending order (insertion sort). -/
def sortDesc (l : List ℚ) : List ℚ := l.foldr insertDesc []

/-- Modelled from the spec: `calculateParetoThreshold(scores, percentile)`
sorts the scores descending and returns the score at the rank boundary
`floor(n * (1 - percentile))`, clamped into range; an empty list yields 0 and
a single score yields that score. -/
def calculateParetoThreshold (scores : List ℚ) (percentile : ℚ) : ℚ :=
  match sortDesc scores with
  | [] => 0
  | sorted =>
    let idx := min ((scores.length : ℚ) * (1 - percentile)).floor.toNat
      (scores.length - 1)
    sorted.getD idx 0

/-! ### Vector similarity search (spec 4.4) -/

structure SimilarHit where
  id : String
  text : String
  score : ℚ
deriving DecidableEq, Repr

/-- Modelled from the spec: `findSimilar(embedding, threshold, limit)` runs a
vector-index query against the backend; on backend failure it logs at debug
severity and returns an empty list instead of propagating the error. The
backend is a parameter; the boolean records whether the debug log was
emitted. -/
def findSimilar (backend : List ℚ → ℚ → Nat → Except String (List SimilarHit))
    (embedding : List ℚ) (threshold : ℚ) (limit : Nat) :
    List SimilarHit × Bool :=
  match backend embedding threshold limit with
  | .ok hits => (hits, false)
  | .error _ => ([], true)

/-! ## Cluster-merge lemmas -/

theorem foldl_pickMax_spec (l : List (String × ℚ)) (a : String × ℚ) :
    (l.foldl (fun best q => if best.2 < q.2 then q else best) a) ∈ a :: l ∧
    ∀ r ∈ a :: l, r.2 ≤ (l.foldl (fun best q => if best.2 < q.2 then q else best) a).2 := by
  induction l generalizing a with
  | nil =>
    refine ⟨List.mem_singleton.mpr rfl, ?_⟩
    intro r hr
    rw [List.mem_singleton] at hr
    subst hr
    exact le_refl _
  | cons q t ih =>
    obtain ⟨ihm, ihb⟩ := ih (if a.2 < q.2 then q else a)
    have hstep : (if a.2 < q.2 then q else a) = q ∨ (if a.2 < q.2 then q else a) = a := by
      split
      · exact Or.inl rfl
      · exact Or.inr rfl
    have hle_a : a.2 ≤ (if a.2 < q.2 then q else a).2 := by
      split
      · next h => exact le_of_lt h
      · exact le_refl _
    have hle_q : q.2 ≤ (if a.2 < q.2 then q else a).2 := by
      split
      · exact le_refl _
      · next h => exact le_of_not_lt h
    constructor
    · rw [List.foldl_cons]
      rcases List.mem_cons.mp ihm with h | h
      · rcases hstep with hs | hs
        · rw [h, hs]
          exact List.mem_cons_of_mem _ (List.mem_cons_self ..)
        · rw [h, hs]
          exact List.mem_cons_self ..
      · exact List.mem_cons_of_mem _ (List.mem_cons_of_mem _ h)
    · intro r hr
      rw [List.foldl_cons]
      rcases List.mem_cons.mp hr with h | h
      · subst h
        exact le_trans hle_a (ihb _ (List.mem_cons_self ..))
      rcases List.mem_cons.mp h with h2 | h2
      · subst h2
        exact le_trans hle_q (ihb _ (List.mem_cons_self ..))
      · exact ihb _ (List.mem_cons_of_mem _ h2)

theorem selectSurvivor_max (p : String × ℚ) (rest : List (String × ℚ)) :
    ∃ q ∈ p :: rest,
      selectSurvivor (p :: rest) = q.1 ∧ ∀ r ∈ p :: rest, r.2 ≤ q.2 := by
  obtain ⟨hm, hb⟩ := foldl_pickMax_spec rest p
  exact ⟨_, hm, rfl, hb⟩

theorem length_filter_ne_of_nodup {l : List String} {x : String}
    (hnd : l.Nodup) (hx : x ∈ l) :
    (l.filter (fun i => i ≠ x)).length = l.length - 1 := by
  induction l with
  | nil => cases hx
  | cons a t ih =>
    rcases List.mem_cons.mp hx with rfl | hx'
    · have hnotin : x ∉ t := (List.nodup_cons.mp hnd).1
      have hself : t.filter (fun i => i ≠ x) = t := by
        rw [List.filter_eq_self]
        intro b hb
        simp only [decide_eq_true_eq]
        exact fun hbx => hnotin (hbx ▸ hb)
      rw [List.filter_cons_of_neg (by simp), hself, List.length_cons]
      omega
    · have ha : ¬(a = x) := fun h => (List.nodup_cons.mp hnd).1 (h ▸ hx')
      have ih' := ih (List.nodup_cons.mp hnd).2 hx'
      have hlen : 1 ≤ t.length := List.length_pos.mpr (List.ne_nil_of_mem hx')
      rw [List.filter_cons_of_pos (by simp [ha]), List.length_cons, ih',
        List.length_cons]
      omega

/-- Claim C1: for every cluster of existing memory ids with pairwise-distinct
importances, `mergeMemoryCluster` selects as survivor the member carrying the
highest importance, transfers all MENTIONS edges of the losing members to the
survivor, deletes the losers, and returns the survivor id together with a
deleted count of the cluster size minus one. -/
theorem mergeMemoryCluster_merges_into_highest_importance
    (ids : List String) (importances : List ℚ) (st : MemStore)
    (hne : ids ≠ []) (hnd : ids.Nodup) (hlen : ids.length = importances.length)
    (himp : importances.Nodup) (hex : ∀ i ∈ ids, memExists st i = true) :
    (∃ q ∈ ids.zip importances,
        (mergeMemoryCluster ids importances st).survivorId = q.1 ∧
        ∀ r ∈ ids.zip importances, r.2 ≤ q.2) ∧
    (mergeMemoryCluster ids importances st).survivorId ∈ ids ∧
    (mergeMemoryCluster ids importances st).deletedCount = ids.length - 1 ∧
    (mergeMemoryCluster ids importances st).warned = false ∧
    (∀ mn ∈ st.mentions, mn.memId ∈ ids →
      mn.memId ≠ (mergeMemoryCluster ids importances st).survivorId →
      { mn with memId := (mergeMemoryCluster ids importances st).survivorId } ∈
        (mergeMemoryCluster ids importances st).store.mentions) ∧
    (∀ m ∈ (mergeMemoryCluster ids importances st).store.memories,
      m.id ∈ ids → m.id = (mergeMemoryCluster ids importances st).survivorId) := by
  have hall : (ids.all fun i => memExists st i) = true := List.all_eq_true.mpr hex
  have hM : mergeMemoryCluster ids importances st =
      { survivorId := selectSurvivor (ids.zip importances)
        deletedCount := (ids.filter
          (fun i => i ≠ selectSurvivor (ids.zip importances))).length
        store := { st with
          memories := st.memories.filter (fun m =>
            m.id ∉ ids.filter (fun i => i ≠ selectSurvivor (ids.zip importances)))
          mentions := st.mentions.map (fun mn =>
            if mn.memId ∈ ids.filter (fun i => i ≠ selectSurvivor (ids.zip importances))
            then { mn with memId := selectSurvivor (ids.zip importances) } else mn) }
        warned := false } := by
    simp [mergeMemoryCluster, hall]
  obtain ⟨a, t, rfl⟩ : ∃ a t, ids = a :: t := by
    cases ids with
    | nil => exact absurd rfl hne
    | cons a t => exact ⟨a, t, rfl⟩
  obtain ⟨b, u, rfl⟩ : ∃ b u, importances = b :: u := by
    cases importances with
    | nil => simp at hlen
    | cons b u => exact ⟨b, u, rfl⟩
  have hzip : (a :: t).zip (b :: u) = (a, b) :: t.zip u := List.zip_cons_cons ..
  obtain ⟨q, hqmem, hqeq, hqmax⟩ := by
    have h := selectSurvivor_max (a, b) (t.zip u)
    rw [← hzip] at h
    exact h
  have hSid : (mergeMemoryCluster (a :: t) (b :: u) st).survivorId = q.1 := by
    rw [hM]
    exact hqeq
  have hSmem : (mergeMemoryCluster (a :: t) (b :: u) st).survivorId ∈ a :: t := by
    rw [hSid]
    exact (List.of_mem_zip hqmem).1
  have hSmem' : selectSurvivor ((a :: t).zip (b :: u)) ∈ a :: t := by
    rw [hqeq]
    exact (List.of_mem_zip hqmem).1
  refine ⟨⟨q, hqmem, hSid, hqmax⟩, hSmem, ?_, ?_, ?_, ?_⟩
  · rw [hM]
    exact length_filter_ne_of_nodup hnd hSmem'
  · rw [hM]
  · intro mn hmn hin hne'
    rw [hM] at hne' ⊢
    refine List.mem_map.mpr ⟨mn, hmn, ?_⟩
    have hcond : mn.memId ∈
        (a :: t).filter (fun i => i ≠ selectSurvivor ((a :: t).zip (b :: u))) :=
      List.mem_filter.mpr ⟨hin, by simpa using hne'⟩
    rw [if_pos hcond]
  · intro m hm hin
    rw [hM] at hm ⊢
    have hflt := (List.mem_filter.mp hm).2
    simp only [decide_eq_true_eq] at hflt
    by_contra hne2
    exact hflt (List.mem_filter.mpr ⟨hin, by simpa using hne2⟩)

/-- Witness for C1: merging the cluster `["low", "high", "mid"]` with
importances 0.3, 0.9, 0.5 in a concrete store retains `"high"` and reports a
deleted count of 2; the deleted count is the theorem's conclusion applied at
that input, and a singleton cluster reports 0. -/
theorem mergeMemoryCluster_merges_into_highest_importance_witness :
    (mergeMemoryCluster ["low", "high", "mid"] [mkRat 3 10, mkRat 9 10, mkRat 1 2]
      exampleStore).survivorId = "high" ∧
    (mergeMemoryCluster ["low", "high", "mid"] [mkRat 3 10, mkRat 9 10, mkRat 1 2]
      exampleStore).deletedCount = (["low", "high", "mid"] : List String).length - 1 ∧
    (mergeMemoryCluster ["solo"] [mkRat 7 10] exampleStore).deletedCount =
      (["solo"] : List String).length - 1 :=
  ⟨by decide,
   (mergeMemoryCluster_merges_into_highest_importance
      ["low", "high", "mid"] [mkRat 3 10, mkRat 9 10, mkRat 1 2] exampleStore
      (by decide) (by decide) (by decide) (by decide) (by decide)).2.2.1,
   (mergeMemoryCluster_merges_into_highest_importance
      ["solo"] [mkRat 7 10] exampleStore
      (by decide) (by decide) (by decide) (by decide) (by decide)).2.2.1⟩

/-- Claim C2: if any cluster member no longer exists in the store at merge
time, `mergeMemoryCluster` performs zero deletions and zero MENTIONS
transfers, emits a warning, and returns deletedCount 0 with the backing store
completely unchanged. -/
theorem mergeMemoryCluster_skips_when_member_missing
    (ids : List String) (importances : List ℚ) (st : MemStore)
    (h : ∃ i ∈ ids, memExists st i = false) :
    (mergeMemoryCluster ids importances st).deletedCount = 0 ∧
    (mergeMemoryCluster ids importances st).store = st ∧
    (mergeMemoryCluster ids importances st).warned = true := by
  obtain ⟨i, hi, hmiss⟩ := h
  have hall : (ids.all fun j => memExists st j) = false :=
    List.all_eq_false.mpr ⟨i, hi, by simp [hmiss]⟩
  simp [mergeMemoryCluster, hall]

/-- Witness for C2: merging a cluster containing the nonexistent id `"ghost"`
leaves the concrete store untouched and warns. -/
theorem mergeMemoryCluster_skips_when_member_missing_witness :
    (mergeMemoryCluster ["ghost", "high"] [mkRat 1 2, mkRat 9 10]
      exampleStore).deletedCount = 0 ∧
    (mergeMemoryCluster ["ghost", "high"] [mkRat 1 2, mkRat 9 10]
      exampleStore).store = exampleStore ∧
    (mergeMemoryCluster ["ghost", "high"] [mkRat 1 2, mkRat 9 10]
      exampleStore).warned = true :=
  mergeMemoryCluster_skips_when_member_missing ["ghost", "high"]
    [mkRat 1 2, mkRat 9 10] exampleStore ⟨"ghost", by decide, by decide⟩

/-- Claim C3: `retryOnTransient` makes at most 3 attempts — an operation that
keeps failing with one transient error is invoked exactly 3 times and that
error then propagates; a first failure that is not transient propagates after
exactly one invocation; a successful retry returns its result (here after one
transient failure, two invocations). -/
theorem retryOnTransient_attempt_policy {α : Type}
    (op : Nat → Except String α) (e : String) (v : α) :
    ((∀ i < 3, op i = .error e) → isTransientError e = true →
      retryOnTransient op = (3, .error e)) ∧
    (op 0 = .error e → isTransientError e = false →
      retryOnTransient op = (1, .error e)) ∧
    (op 0 = .error e → isTransientError e = true → op 1 = .ok v →
      retryOnTransient op = (2, .ok v)) := by
  refine ⟨?_, ?_, ?_⟩
  · intro hall htr
    have h0 := hall 0 (by omega)
    have h1 := hall 1 (by omega)
    have h2 := hall 2 (by omega)
    simp [retryOnTransient, TRANSIENT_RETRY_ATTEMPTS, retryFrom, h0, h1, h2, htr]
  · intro h0 htr
    simp [retryOnTransient, TRANSIENT_RETRY_ATTEMPTS, retryFrom, h0, htr]
  · intro h0 htr h1
    simp [retryOnTransient, TRANSIENT_RETRY_ATTEMPTS, retryFrom, h0, h1, htr]

/-- Witness for C3: an everlasting transient deadlock is retried to 3 total
attempts; a constraint violation propagates at once; a transient failure
followed by success returns the success after 2 attempts. -/
theorem retryOnTransient_attempt_policy_witness :
    retryOnTransient (fun _ => (.error "TransientError: deadlock" : Except String Nat)) =
      (3, .error "TransientError: deadlock") ∧
    retryOnTransient (fun _ => (.error "ConstraintViolation" : Except String Nat)) =
      (1, .error "ConstraintViolation") ∧
    retryOnTransient (fun i =>
      if i = 0 then (.error "DeadlockDetected" : Except String Nat) else .ok 7) =
      (2, .ok 7) :=
  ⟨(retryOnTransient_attempt_policy (fun _ => .error "TransientError: deadlock")
      "TransientError: deadlock" 0).1 (fun i _ => rfl) (by decide),
   (retryOnTransient_attempt_policy (fun _ => .error "ConstraintViolation")
      "ConstraintViolation" 0).2.1 rfl (by decide),
   (retryOnTransient_attempt_policy
      (fun i => if i = 0 then .error "DeadlockDetected" else .ok 7)
      "DeadlockDetected" 7).2.2 rfl (by decide) rfl⟩

/-- Store holding one memory under a UUID-shaped id, used to instantiate the
deletion theorem's existing-record branch. -/
def exampleUuidStore : MemStore :=
  { memories := [⟨"550e8400-e29b-41d4-a716-446655440000", mkRat 1 2, "fact"⟩]
    mentions := [⟨"550e8400-e29b-41d4-a716-446655440000", "alice"⟩]
    entities := [⟨"alice", 1⟩] }

/-- Claim C4: `deleteMemory` on a non-UUID-shaped identifier fails with the
invalid-identifier error and issues no query to the store; on a well-formed
identifier it returns true exactly when a memory with that id existed (and
the memory is gone afterwards), and false without error when none existed. -/
theorem deleteMemory_contract (id : String) (st : MemStore) :
    (isValidUuid id = false →
      deleteMemory id st =
        { result := .error .invalidIdentifier, store := st, queries := 0 }) ∧
    (isValidUuid id = true → (∃ m ∈ st.memories, m.id = id) →
      (deleteMemory id st).result = .ok true ∧
      ∀ m ∈ (deleteMemory id st).store.memories, m.id ≠ id) ∧
    (isValidUuid id = true → (∀ m ∈ st.memories, m.id ≠ id) →
      (deleteMemory id st).result = .ok false) := by
  refine ⟨?_, ?_, ?_⟩
  · intro h
    simp [deleteMemory, h]
  · intro hv hex
    have hmem : memExists st id = true := by
      obtain ⟨m, hm, hid⟩ := hex
      exact List.any_eq_true.mpr ⟨m, hm, by simp [hid]⟩
    refine ⟨by simp [deleteMemory, hv, hmem], ?_⟩
    intro m hm
    simp only [deleteMemory, hv, if_true] at hm
    have := (List.mem_filter.mp hm).2
    simpa using this
  · intro hv hnone
    have hmem : memExists st id = false := by
      rw [memExists, List.any_eq_false]
      intro m hm
      simp [hnone m hm]
    simp [deleteMemory, hv, hmem]

/-- Witness for C4: `"not-a-uuid"` is rejected with no query; deleting an
existing UUID-identified memory returns true and removes it; deleting a
well-formed but absent id returns false. -/
theorem deleteMemory_contract_witness :
    deleteMemory "not-a-uuid" exampleStore =
      { result := .error .invalidIdentifier, store := exampleStore, queries := 0 } ∧
    (deleteMemory "550e8400-e29b-41d4-a716-446655440000" exampleUuidStore).result =
      .ok true ∧
    (deleteMemory "550e8400-e29b-41d4-a716-446655440000" exampleStore).result =
      .ok false :=
  ⟨(deleteMemory_contract "not-a-uuid" exampleStore).1 (by decide),
   ((deleteMemory_contract "550e8400-e29b-41d4-a716-446655440000"
      exampleUuidStore).2.1 (by decide)
      ⟨⟨"550e8400-e29b-41d4-a716-446655440000", mkRat 1 2, "fact"⟩,
        by decide, rfl⟩).1,
   (deleteMemory_contract "550e8400-e29b-41d4-a716-446655440000"
      exampleStore).2.2 (by decide) (by decide)⟩

/-- Neighbor function realizing the chain m1↔m2, m2↔m3 with no direct
m1↔m3 link. -/
def chainNeighbors : String → List String := fun m =>
  if m = "m1" then ["m2"] else if m = "m2" then ["m3"] else []

/-- Claim C5: `findDuplicateClusters` unions near-neighbor ids transitively
and emits only components with 2 or more members — a similarity chain
m1↔m2↔m3 yields the single cluster of all three ids, while memories with no
neighbor at the threshold, an empty store, and a single-memory store all
yield no clusters. -/
theorem findDuplicateClusters_union_find
    (memIds : List String) (neighbors : String → List String) :
    ((∀ m, neighbors m = []) → findDuplicateClusters memIds neighbors = []) ∧
    (findDuplicateClusters [] neighbors = []) ∧
    (∀ i, neighbors i = [] → findDuplicateClusters [i] neighbors = []) ∧
    (∀ g ∈ findDuplicateClusters memIds neighbors, 2 ≤ g.length) ∧
    (findDuplicateClusters ["m1", "m2", "m3"] chainNeighbors =
      [["m1", "m2", "m3"]]) := by
  refine ⟨?_, rfl, ?_, ?_, by decide⟩
  · intro h
    have hfold : ∀ (l : List String) (acc : List (List String) × Nat),
        (l.foldl (fun acc m =>
          if 500 < acc.2 then acc
          else ((neighbors m).foldl (fun gs n => unionIds gs m n) acc.1,
            acc.2 + (neighbors m).length)) acc) = acc := by
      intro l
      induction l with
      | nil => intro acc; rfl
      | cons m t ih =>
        intro acc
        rw [List.foldl_cons]
        have hstep : (if 500 < acc.2 then acc
            else ((neighbors m).foldl (fun gs n => unionIds gs m n) acc.1,
              acc.2 + (neighbors m).length)) = acc := by
          rw [h m]
          simp
        rw [hstep, ih]
    simp only [findDuplicateClusters]
    rw [hfold]
    simp only [List.filter_eq_nil_iff]
    intro g hg
    obtain ⟨i, hi, rfl⟩ := List.mem_map.mp hg
    simp
  · intro i hi
    simp [findDuplicateClusters, hi]
  · intro g hg
    simp only [findDuplicateClusters] at hg
    have := (List.mem_filter.mp hg).2
    simpa using this

/-- Witness for C5: a two-memory store with no neighbor links yields no
clusters; the chain cluster contains at least two members. -/
theorem findDuplicateClusters_union_find_witness :
    findDuplicateClusters ["m1", "m2"] (fun _ => []) = [] ∧
    findDuplicateClusters ["solo"] chainNeighbors = [] ∧
    2 ≤ (["m1", "m2", "m3"] : List String).length :=
  ⟨(findDuplicateClusters_union_find ["m1", "m2"] (fun _ => [])).1 (fun _ => rfl),
   (findDuplicateClusters_union_find ["solo"] chainNeighbors).2.2.1 "solo" rfl,
   (findDuplicateClusters_union_find ["m1", "m2", "m3"] chainNeighbors).2.2.2.1
     ["m1", "m2", "m3"] (by decide)⟩

/-- Claim C8: `calculateParetoThreshold` returns 0 on the empty score list for
every percentile, and returns the sole score of a singleton list for every
percentile. -/
theorem calculateParetoThreshold_empty_and_single :
    (∀ p : ℚ, calculateParetoThreshold [] p = 0) ∧
    (∀ (x p : ℚ), calculateParetoThreshold [x] p = x) := by
  constructor
  · intro p
    rfl
  · intro x p
    simp [calculateParetoThreshold, sortDesc, insertDesc]

/-- Claim C9: when the backing vector index fails, `findSimilar` returns an
empty list (and logs at debug severity) instead of propagating the error, for
every query embedding, threshold and limit. -/
theorem findSimilar_returns_empty_on_backend_failure
    (backend : List ℚ → ℚ → Nat → Except String (List SimilarHit))
    (embedding : List ℚ) (threshold : ℚ) (limit : Nat) (err : String)
    (h : backend embedding threshold limit = .error err) :
    findSimilar backend embedding threshold limit = ([], true) := by
  simp [findSimilar, h]

/-- Witness for C9: a backend whose index is not ready yields the empty
result set with the debug log emitted. -/
theorem findSimilar_returns_empty_on_backend_failure_witness :
    findSimilar (fun _ _ _ => .error "index not ready") [mkRat 1 10]
      (mkRat 95 100) 5 = ([], true) :=
  findSimilar_returns_empty_on_backend_failure (fun _ _ _ => .error "index not ready")
    [mkRat 1 10] (mkRat 95 100) 5 "index not ready" rfl
